import Mathlib

/-!
Shallow embedding of `src/packages/core/svelte/use-chat.ts`.

The hook keeps reactive stores (messages, error, loading, input, stream
data), a module-global cache entry keyed by `(api, chatId)`, and a mutable
`abortController` reference.  The streaming collaborators `callApi` /
`processChatStream` are external: a call into them is modelled by
(a) the state the store-mutating callbacks left behind when the awaited
call settled (`StoreSub`), and (b) how the returned promise settled
(`StreamOutcome`): fulfilled, or rejected with some thrown value.
JavaScript lets code throw any value, so a thrown value carries its
`name` field (used by the `err.name === 'AbortError'` check) and whether
it is an `instanceof Error` (used by the `onError` guard).
-/

namespace UseChat

/-- Placeholder for the opaque `JSONValue` payloads streamed by the server. -/
abbrev JSONValue := Nat

/-- A chat message, from `shared/types`.  `CreateMessage` (a message whose
`id` the caller omitted) is modelled by `id = none`; a present but empty
string id is `some ""` (both are falsy in `if (!message.id)`). -/
structure Message where
  id : Option String
  role : String
  content : String
  name : Option String := none
  function_call : Option String := none
  createdAt : Option Nat := none
deriving DecidableEq, Repr

/-- The `ChatRequestOptions` argument of `append` / `reload` / `handleSubmit`.
`options` (per-request headers/body) is opaque here. -/
structure ChatRequestOptions where
  options : Option Nat := none
  functions : Option (List String) := none
  function_call : Option String := none
deriving DecidableEq, Repr

/-- The `ChatRequest` snapshot handed to the streaming collaborator. -/
structure ChatRequest where
  messages : List Message
  options : Option Nat := none
  functions : Option (List String) := none
  function_call : Option String := none
deriving DecidableEq, Repr

/-- A JavaScript thrown value, as observed by the `catch` block:
its `.name` property and whether it is an `instanceof Error`. -/
structure ThrownValue where
  name : String
  isErrorInstance : Bool
  payload : Nat := 0
deriving DecidableEq, Repr

/-- How the awaited `processChatStream(...)` promise settled. -/
inductive StreamOutcome where
  | success
  | reject (e : ThrownValue)
deriving DecidableEq, Repr

/-- The part of the hook state reachable from the collaborator through the
callbacks it is given: `mutate` writes `store[key]` and the messages store,
`mutateStreamData` writes the stream-data store.  The collaborator cannot
reach `error`, `loading`, `input`, or the `abortController` variable. -/
structure StoreSub where
  messages : List Message
  cacheEntry : Option (List Message)
  streamData : Option (List JSONValue)
deriving DecidableEq, Repr

/-- The mutable state of one `useChat` instance.  `abortController` holds
the id of the live `AbortController`, drawn fresh from `nextControllerId`;
`cacheEntry` is `store[key]` for this instance's key. -/
structure UseChatState where
  messages : List Message
  cacheEntry : Option (List Message)
  streamData : Option (List JSONValue)
  loading : Bool
  error : Option ThrownValue
  input : String
  abortController : Option Nat
  nextControllerId : Nat
deriving DecidableEq, Repr

/-- The JavaScript value an async action resolved with: `null` (explicit
`return null`) or `undefined` (falling off the end of the function). -/
inductive RetVal where
  | jsNull
  | jsUndefined
deriving DecidableEq, Repr

/-- Result of one public action: the final state, the `ChatRequest`s handed
to `triggerRequest` (in order), the arguments of the `onError` calls made,
and the resolved value. -/
structure OpResult where
  state : UseChatState
  sent : List ChatRequest
  onErrorCalls : List ThrownValue
  ret : RetVal
deriving DecidableEq, Repr

/-- Write back the store fields the collaborator's callbacks control. -/
def applyStoreSub (s : UseChatState) (sub : StoreSub) : UseChatState :=
  { s with messages := sub.messages, cacheEntry := sub.cacheEntry,
           streamData := sub.streamData }

/-- `triggerRequest(chatRequest)` (lines 185-233).  Entry: clear the error
store, set loading, install a fresh `AbortController`.  Then the awaited
collaborator call settles with `outcome`, its callbacks having driven the
stores to `sub`.  Success and abort-named rejections clear the controller
reference and resolve with `null`; any other rejection calls `onError`
(when provided and the value is an `Error` instance) and publishes the
value to the error store.  The `finally` block clears `loading` on every
path.  `hasOnError` records whether an `onError` callback was supplied. -/
def triggerRequest (s : UseChatState) (chatRequest : ChatRequest)
    (sub : StoreSub) (outcome : StreamOutcome) (hasOnError : Bool) : OpResult :=
  let s1 : UseChatState :=
    { s with error := none, loading := true,
             abortController := some s.nextControllerId,
             nextControllerId := s.nextControllerId + 1 }
  let s2 := applyStoreSub s1 sub
  match outcome with
  | StreamOutcome.success =>
      { state := { s2 with abortController := none, loading := false },
        sent := [chatRequest], onErrorCalls := [], ret := RetVal.jsNull }
  | StreamOutcome.reject e =>
      if e.name = "AbortError" then
        { state := { s2 with abortController := none, loading := false },
          sent := [chatRequest], onErrorCalls := [], ret := RetVal.jsNull }
      else
        { state := { s2 with error := some e, loading := false },
          sent := [chatRequest],
          onErrorCalls := if hasOnError && e.isErrorInstance then [e] else [],
          ret := RetVal.jsUndefined }

/-- The `if (!message.id)` falsy test: `undefined` or the empty string. -/
def idMissing : Option String → Bool
  | none => true
  | some s => s.isEmpty

/-- `if (!message.id) { message.id = nanoid(); }` with `freshId` standing
for the value the external id generator produced. -/
def assignId (freshId : String) (m : Message) : Message :=
  if idMissing m.id then { m with id := some freshId } else m

/-- Build the `ChatRequest` literal the actions construct (the conditional
spreads for `functions` / `function_call` collapse to copying the options). -/
def mkChatRequest (msgs : List Message) (o : ChatRequestOptions) : ChatRequest :=
  { messages := msgs, options := o.options, functions := o.functions,
    function_call := o.function_call }

/-- `append(message, options)` (lines 235-250): assign an id if missing,
concatenate onto the current snapshot, trigger the request. -/
def append (s : UseChatState) (m : Message) (o : ChatRequestOptions)
    (freshId : String) (sub : StoreSub) (outcome : StreamOutcome)
    (hasOnError : Bool) : OpResult :=
  let m2 := assignId freshId m
  triggerRequest s (mkChatRequest (s.messages ++ [m2]) o) sub outcome hasOnError

/-- `reload(options)` (lines 252-280): `null` on an empty snapshot; drop a
trailing assistant message, otherwise resend the snapshot unchanged. -/
def reload (s : UseChatState) (o : ChatRequestOptions) (sub : StoreSub)
    (outcome : StreamOutcome) (hasOnError : Bool) : OpResult :=
  if s.messages = [] then
    { state := s, sent := [], onErrorCalls := [], ret := RetVal.jsNull }
  else if s.messages.getLast?.map Message.role = some "assistant" then
    triggerRequest s (mkChatRequest s.messages.dropLast o) sub outcome hasOnError
  else
    triggerRequest s (mkChatRequest s.messages o) sub outcome hasOnError

/-- Result of `stop()`: the final state and the controllers `abort()` was
called on. -/
structure StopResult where
  state : UseChatState
  aborted : List Nat
deriving DecidableEq, Repr

/-- `stop()` (lines 282-287): abort the held controller, if any, and clear
the reference. -/
def stop (s : UseChatState) : StopResult :=
  match s.abortController with
  | some c => { state := { s with abortController := none }, aborted := [c] }
  | none => { state := s, aborted := [] }

/-- `setMessages(messages)` (lines 289-291): `mutate` writes `store[key]`
and the reactive messages store; no request is triggered. -/
def setMessages (s : UseChatState) (ms : List Message) : OpResult :=
  { state := { s with messages := ms, cacheEntry := some ms },
    sent := [], onErrorCalls := [], ret := RetVal.jsUndefined }

/-- The user message `handleSubmit` synthesizes (no id, a timestamp). -/
def mkUserMessage (content : String) (now : Nat) : Message :=
  { id := none, role := "user", content := content, createdAt := some now }

/-- `handleSubmit(e, options)` (lines 295-309): return on falsy (empty)
input; otherwise append a synthesized user message and clear the input
store.  `input.set('')` runs after `append` starts but nothing in the
request path reads or writes `input`, so it lands in the final state. -/
def handleSubmit (s : UseChatState) (o : ChatRequestOptions) (freshId : String)
    (now : Nat) (sub : StoreSub) (outcome : StreamOutcome)
    (hasOnError : Bool) : OpResult :=
  if s.input = "" then
    { state := s, sent := [], onErrorCalls := [], ret := RetVal.jsUndefined }
  else
    let r := append s (mkUserMessage s.input now) o freshId sub outcome hasOnError
    { r with state := { r.state with input := "" } }

/-! Concrete instances used by witnesses and counterexamples. -/

/-- A user message with an id. -/
def msgU : Message := { id := some "u1", role := "user", content := "hi" }

/-- An assistant message with an id. -/
def msgA : Message := { id := some "a1", role := "assistant", content := "hello" }

/-- A quiescent state holding a user/assistant exchange. -/
def stUA : UseChatState :=
  { messages := [msgU, msgA], cacheEntry := none, streamData := none,
    loading := false, error := none, input := "", abortController := none,
    nextControllerId := 0 }

/-- A quiescent state holding a single trailing user message. -/
def stU : UseChatState :=
  { messages := [msgU], cacheEntry := none, streamData := none,
    loading := false, error := none, input := "", abortController := none,
    nextControllerId := 0 }

/-- A quiescent empty-history state. -/
def stEmpty : UseChatState :=
  { messages := [], cacheEntry := none, streamData := none,
    loading := false, error := none, input := "", abortController := none,
    nextControllerId := 0 }

/-- A post-collaborator store snapshot. -/
def subId : StoreSub := { messages := [msgU], cacheEntry := none, streamData := none }

/-- A request literal. -/
def reqU : ChatRequest := { messages := [msgU] }

/-- A rejection value that is a genuine `Error` instance. -/
def errBoom : ThrownValue := { name := "Error", isErrorInstance := true, payload := 1 }

/-- A rejection value that is not an `instanceof Error` (JavaScript code can
throw any value, e.g. a string or a plain object). -/
def errPlain : ThrownValue := { name := "SomeFailure", isErrorInstance := false, payload := 2 }

/-- An abort-named rejection value. -/
def errAbort : ThrownValue := { name := "AbortError", isErrorInstance := true, payload := 3 }

/-- Every path through `triggerRequest` hands exactly the given request to
the collaborator. -/
theorem triggerRequest_sent_singleton (s : UseChatState) (req : ChatRequest)
    (sub : StoreSub) (outcome : StreamOutcome) (hb : Bool) :
    (triggerRequest s req sub outcome hb).sent = [req] := by
  cases outcome with
  | success => rfl
  | reject e => by_cases he : e.name = "AbortError" <;> simp [triggerRequest, he]

/-- Claim C1: on a non-empty history, `reload()` drops a trailing assistant
message from the request it triggers, and otherwise sends the snapshot
unchanged. -/
theorem reload_trims_trailing_assistant (s : UseChatState)
    (o : ChatRequestOptions) (sub : StoreSub) (outcome : StreamOutcome)
    (hb : Bool) (h : s.messages ≠ []) :
    ((s.messages.getLast h).role = "assistant" →
      (reload s o sub outcome hb).sent = [mkChatRequest s.messages.dropLast o]) ∧
    ((s.messages.getLast h).role ≠ "assistant" →
      (reload s o sub outcome hb).sent = [mkChatRequest s.messages o]) := by
  have hl : s.messages.getLast? = some (s.messages.getLast h) :=
    List.getLast?_eq_getLast _ h
  constructor
  · intro hr
    simp [reload, h, hl, hr, triggerRequest_sent_singleton]
  · intro hr
    simp [reload, h, hl, hr, triggerRequest_sent_singleton]

/-- Witness for C1 on a two-message history ending in an assistant message,
and on a one-message history ending in a user message. -/
theorem reload_trims_trailing_assistant_witness :
    (reload stUA {} subId StreamOutcome.success false).sent
      = [mkChatRequest stUA.messages.dropLast {}] ∧
    (reload stU {} subId StreamOutcome.success false).sent
      = [mkChatRequest stU.messages {}] := by
  constructor
  · exact (reload_trims_trailing_assistant stUA {} subId StreamOutcome.success
      false (by decide)).1 (by decide)
  · exact (reload_trims_trailing_assistant stU {} subId StreamOutcome.success
      false (by decide)).2 (by decide)

/-- Claim C2 counterexample: a non-abort rejection whose thrown value is not
an `instanceof Error` (JavaScript code can reject with any value) is
published to the error store, but the provided `onError` callback is never
invoked, because of the `err instanceof Error` guard on line 225. -/
theorem triggerRequest_onError_skipped_for_plain_value :
    errPlain.name ≠ "AbortError" ∧
    (triggerRequest stU reqU subId (StreamOutcome.reject errPlain) true).state.error
      = some errPlain ∧
    (triggerRequest stU reqU subId (StreamOutcome.reject errPlain) true).onErrorCalls
      = [] := by
  decide

/-- Claim C2 (amended): on a non-abort rejection the error store is set to
the rejected value; the `onError` callback, when provided, is invoked
exactly once with that value if the value is an `Error` instance, and is
not invoked otherwise (nor when absent). -/
theorem triggerRequest_reject_error_routing (s : UseChatState)
    (req : ChatRequest) (sub : StoreSub) (e : ThrownValue) (hb : Bool)
    (h : e.name ≠ "AbortError") :
    (triggerRequest s req sub (StreamOutcome.reject e) hb).state.error = some e ∧
    (hb = true → e.isErrorInstance = true →
      (triggerRequest s req sub (StreamOutcome.reject e) hb).onErrorCalls = [e]) ∧
    (e.isErrorInstance = false →
      (triggerRequest s req sub (StreamOutcome.reject e) hb).onErrorCalls = []) ∧
    (hb = false →
      (triggerRequest s req sub (StreamOutcome.reject e) hb).onErrorCalls = []) := by
  refine ⟨?_, ?_, ?_, ?_⟩
  · simp [triggerRequest, applyStoreSub, h]
  · intro h1 h2; simp [triggerRequest, applyStoreSub, h, h1, h2]
  · intro h1; simp [triggerRequest, applyStoreSub, h, h1]
  · intro h1; simp [triggerRequest, applyStoreSub, h, h1]

/-- Witness for C2 (amended): a genuine `Error` rejection with `onError`
provided is stored and routed to the callback exactly once. -/
theorem triggerRequest_reject_error_routing_witness :
    (triggerRequest stU reqU subId (StreamOutcome.reject errBoom) true).state.error
      = some errBoom ∧
    (triggerRequest stU reqU subId (StreamOutcome.reject errBoom) true).onErrorCalls
      = [errBoom] := by
  have h := triggerRequest_reject_error_routing stU reqU subId errBoom true (by decide)
  exact ⟨h.1, h.2.1 rfl rfl⟩

/-- Claim C3: every terminating execution of `triggerRequest` (success,
abort-class rejection, or any other rejection) ends with the loading store
cleared, via the `finally` block. -/
theorem triggerRequest_clears_loading (s : UseChatState) (req : ChatRequest)
    (sub : StoreSub) (outcome : StreamOutcome) (hb : Bool) :
    (triggerRequest s req sub outcome hb).state.loading = false := by
  cases outcome with
  | success => rfl
  | reject e =>
      by_cases he : e.name = "AbortError" <;>
        simp [triggerRequest, applyStoreSub, he]

/-- Claim C4: an abort-named rejection resolves silently: the error store
ends unset, the controller reference is cleared, `onError` is not invoked,
the promise resolves with `null`, and loading ends false. -/
theorem triggerRequest_abort_silent (s : UseChatState) (req : ChatRequest)
    (sub : StoreSub) (e : ThrownValue) (hb : Bool)
    (h : e.name = "AbortError") :
    (triggerRequest s req sub (StreamOutcome.reject e) hb).state.error = none ∧
    (triggerRequest s req sub (StreamOutcome.reject e) hb).state.abortController = none ∧
    (triggerRequest s req sub (StreamOutcome.reject e) hb).onErrorCalls = [] ∧
    (triggerRequest s req sub (StreamOutcome.reject e) hb).ret = RetVal.jsNull ∧
    (triggerRequest s req sub (StreamOutcome.reject e) hb).state.loading = false := by
  simp [triggerRequest, applyStoreSub, h]

/-- Witness for C4 at a concrete abort-named rejection. -/
theorem triggerRequest_abort_silent_witness :
    (triggerRequest stU reqU subId (StreamOutcome.reject errAbort) true).state.error
      = none ∧
    (triggerRequest stU reqU subId (StreamOutcome.reject errAbort) true).state.loading
      = false :=
  have h := triggerRequest_abort_silent stU reqU subId errAbort true (by decide)
  ⟨h.1, h.2.2.2.2⟩

/-- Claim C5: `reload()` on an empty history resolves with `null`, triggers
no request, and leaves the whole state unchanged. -/
theorem reload_empty_is_noop (s : UseChatState) (o : ChatRequestOptions)
    (sub : StoreSub) (outcome : StreamOutcome) (hb : Bool)
    (h : s.messages = []) :
    reload s o sub outcome hb =
      { state := s, sent := [], onErrorCalls := [], ret := RetVal.jsNull } := by
  simp [reload, h]

/-- Witness for C5 at the concrete empty-history state. -/
theorem reload_empty_is_noop_witness :
    reload stEmpty {} subId StreamOutcome.success false =
      { state := stEmpty, sent := [], onErrorCalls := [], ret := RetVal.jsNull } :=
  reload_empty_is_noop stEmpty {} subId StreamOutcome.success false rfl

/-- Claim C6: `append` fills in the generated id exactly when the message
arrives without one (falsy id), before the request is constructed; the
message in the triggered request carries that id, all other fields are
untouched, and the assignment logic never rewrites a present id (so the id
is stable thereafter).  The hypothesis encodes the id generator's contract
that it returns a non-empty string. -/
theorem append_assigns_stable_id (s : UseChatState) (m : Message)
    (o : ChatRequestOptions) (f : String) (sub : StoreSub)
    (outcome : StreamOutcome) (hb : Bool) (hf : f ≠ "") :
    (append s m o f sub outcome hb).sent
      = [mkChatRequest (s.messages ++ [assignId f m]) o] ∧
    (idMissing m.id = true → (assignId f m).id = some f) ∧
    (idMissing m.id = false → assignId f m = m) ∧
    (assignId f m).role = m.role ∧
    (assignId f m).content = m.content ∧
    (assignId f m).createdAt = m.createdAt ∧
    idMissing (assignId f m).id = false ∧
    (∀ g : String, assignId g (assignId f m) = assignId f m) := by
  have hfe : f.isEmpty = false := by
    cases hc : f.isEmpty
    · rfl
    · exact absurd ((String.isEmpty_iff f).mp hc) hf
  have hsent : (append s m o f sub outcome hb).sent
      = [mkChatRequest (s.messages ++ [assignId f m]) o] := by
    simp [append, triggerRequest_sent_singleton]
  by_cases hm : idMissing m.id = true
  · have ha : assignId f m = { m with id := some f } := by
      simp [assignId, hm]
    refine ⟨hsent, ?_, ?_, ?_, ?_, ?_, ?_, ?_⟩
    · intro _; rw [ha]
    · intro hcon; rw [hm] at hcon; exact Bool.noConfusion hcon
    · rw [ha]
    · rw [ha]
    · rw [ha]
    · rw [ha]; simpa [idMissing] using hfe
    · intro g; rw [ha]; simp [assignId, idMissing, hfe]
  · have hm2 : idMissing m.id = false := by
      cases hc : idMissing m.id
      · rfl
      · exact absurd hc hm
    have ha : assignId f m = m := by simp [assignId, hm]
    refine ⟨hsent, ?_, ?_, ?_, ?_, ?_, ?_, ?_⟩
    · intro hcon; exact absurd hcon hm
    · intro _; exact ha
    · rw [ha]
    · rw [ha]
    · rw [ha]
    · rw [ha]; exact hm2
    · intro g; rw [ha]; simp [assignId, hm]

/-- Witness for C6: an id-less user message gets the generated id `"id7"`
in the request `append` triggers. -/
theorem append_assigns_stable_id_witness :
    (append stEmpty (mkUserMessage "hi" 5) {} "id7" subId StreamOutcome.success
        false).sent
      = [mkChatRequest [assignId "id7" (mkUserMessage "hi" 5)] {}] ∧
    (assignId "id7" (mkUserMessage "hi" 5)).id = some "id7" := by
  have h := append_assigns_stable_id stEmpty (mkUserMessage "hi" 5) {} "id7"
    subId StreamOutcome.success false (by decide)
  exact ⟨h.1, h.2.1 (by decide)⟩

/-- Claim C7: `handleSubmit` on empty input appends nothing and changes
nothing; on non-empty input it appends exactly one synthesized user message
(the input text as content, role `"user"`, a timestamp) and then clears
the input store. -/
theorem handleSubmit_empty_vs_nonempty (s : UseChatState)
    (o : ChatRequestOptions) (f : String) (now : Nat) (sub : StoreSub)
    (outcome : StreamOutcome) (hb : Bool) :
    (s.input = "" → handleSubmit s o f now sub outcome hb =
      { state := s, sent := [], onErrorCalls := [], ret := RetVal.jsUndefined }) ∧
    (s.input ≠ "" →
      (handleSubmit s o f now sub outcome hb).sent =
        [mkChatRequest (s.messages ++ [assignId f (mkUserMessage s.input now)]) o] ∧
      (assignId f (mkUserMessage s.input now)).content = s.input ∧
      (assignId f (mkUserMessage s.input now)).role = "user" ∧
      (assignId f (mkUserMessage s.input now)).createdAt = some now ∧
      (handleSubmit s o f now sub outcome hb).state.input = "") := by
  constructor
  · intro h; simp [handleSubmit, h]
  · intro h
    refine ⟨?_, ?_, ?_, ?_, ?_⟩ <;>
      simp [handleSubmit, h, append, triggerRequest_sent_singleton, assignId,
        mkUserMessage, idMissing]

/-- Witness for C7: both branches at concrete states. -/
theorem handleSubmit_empty_vs_nonempty_witness :
    handleSubmit stEmpty {} "id7" 5 subId StreamOutcome.success false =
      { state := stEmpty, sent := [], onErrorCalls := [],
        ret := RetVal.jsUndefined } ∧
    (handleSubmit { stEmpty with input := "hi" } {} "id7" 5 subId
        StreamOutcome.success false).state.input = "" := by
  constructor
  · exact (handleSubmit_empty_vs_nonempty stEmpty {} "id7" 5 subId
      StreamOutcome.success false).1 (by decide)
  · exact ((handleSubmit_empty_vs_nonempty { stEmpty with input := "hi" } {}
      "id7" 5 subId StreamOutcome.success false).2 (by decide)).2.2.2.2

/-- Claim C8: `setMessages(m)` overwrites the reactive messages store and
the cache entry for the current key with `m`, triggers no request, and
leaves error, loading, stream data, input and the controller reference
unchanged. -/
theorem setMessages_overwrites_locally (s : UseChatState) (ms : List Message) :
    (setMessages s ms).state.messages = ms ∧
    (setMessages s ms).state.cacheEntry = some ms ∧
    (setMessages s ms).sent = [] ∧
    (setMessages s ms).state.error = s.error ∧
    (setMessages s ms).state.loading = s.loading ∧
    (setMessages s ms).state.streamData = s.streamData ∧
    (setMessages s ms).state.input = s.input ∧
    (setMessages s ms).state.abortController = s.abortController := by
  simp [setMessages]

/-- Claim C9: `stop()` with no held controller aborts nothing and leaves the
state unchanged; consequently a second consecutive `stop()` is always a
no-op (idempotence). -/
theorem stop_noop_without_controller (s : UseChatState) :
    (s.abortController = none → stop s = { state := s, aborted := [] }) ∧
    stop (stop s).state = { state := (stop s).state, aborted := [] } := by
  constructor
  · intro h; simp [stop, h]
  · cases hc : s.abortController <;> simp [stop, hc]

/-- Witness for C9 at the concrete quiescent state. -/
theorem stop_noop_without_controller_witness :
    stop stEmpty = { state := stEmpty, aborted := [] } :=
  (stop_noop_without_controller stEmpty).1 rfl

/-- Claim C10: a non-abort failure does not clear the controller reference:
it still holds the controller created for the failed request, and a
subsequent `stop()` calls `abort()` on that stale controller (and only then
clears the reference). -/
theorem triggerRequest_failure_keeps_stale_controller (s : UseChatState)
    (req : ChatRequest) (sub : StoreSub) (e : ThrownValue) (hb : Bool)
    (h : e.name ≠ "AbortError") :
    (triggerRequest s req sub (StreamOutcome.reject e) hb).state.abortController
      = some s.nextControllerId ∧
    (stop (triggerRequest s req sub (StreamOutcome.reject e) hb).state).aborted
      = [s.nextControllerId] ∧
    (stop (triggerRequest s req sub (StreamOutcome.reject e) hb).state).state.abortController
      = none := by
  simp [triggerRequest, applyStoreSub, h, stop]

/-- Witness for C10: after a concrete failed request on a fresh instance,
`stop()` aborts controller `0`, the one created for that request. -/
theorem triggerRequest_failure_keeps_stale_controller_witness :
    (triggerRequest stU reqU subId (StreamOutcome.reject errBoom) true).state.abortController
      = some 0 ∧
    (stop (triggerRequest stU reqU subId (StreamOutcome.reject errBoom) true).state).aborted
      = [0] :=
  have h := triggerRequest_failure_keeps_stale_controller stU reqU subId errBoom
    true (by decide)
  ⟨h.1, h.2.1⟩

end UseChat
